import Mathlib

/-!
Verification development for the Cascade propagation engine.

The definitions below are a shallow embedding of the Python sources:
  - `cascade/core/cline.py`   (ClineResult, ClineWrapper._run, _parse_json_lines)
  - `cascade/core/propagator.py` (Propagator._handle_repo, _run_tests, Status)
  - `cascade/core/config.py`  (Settings, RepoConfig)

External effects (subprocess spawning, git commands, the JSON decoder of the
standard library, test execution) are modelled as explicit environment
parameters: fallible operations are `Except String` values (an exception with
its message) and agent invocations are pure `ClineResult` values, because the
wrapper itself never raises.  Machine time (durations, timestamps) is omitted:
no claim depends on it.
-/

namespace Cascade

/-- Abstraction of a JSON object as far as `text_output` inspects it:
`type?` models `msg.get("type")` and `text?` models `msg.get("text")`
(`none` when the key is absent). -/
structure JsonMsg where
  type? : Option String := none
  text? : Option String := none
deriving Repr, DecidableEq

/-- Embedding of the `ClineResult` dataclass from `cline.py` (fields the
claims mention; timestamps and ids are irrelevant to every claim). -/
structure ClineResult where
  exit_code : Int := 0
  stdout : String := ""
  stderr : String := ""
  success : Bool := true
  error : String := ""
  json_messages : List JsonMsg := []
deriving Repr, DecidableEq

/-- Model of Python `str.splitlines` for the purposes of line-by-line JSON
parsing: split on newline characters.  (`str.strip` applied afterwards
removes any carriage return, so the difference with Python's richer
line-break set is immaterial here.) -/
def splitLines (s : String) : List String := s.splitOn "\n"

/-- Loop body of `ClineWrapper._parse_json_lines`: for each line, strip it,
skip it when empty, try `json.loads` (the parameter `loads`, `none` meaning
`json.JSONDecodeError`), and append the parsed message on success. -/
def parseJsonLinesGo (loads : String → Option JsonMsg) : List String → List JsonMsg
  | [] => []
  | line :: rest =>
    let line := line.trim
    if line = "" then parseJsonLinesGo loads rest
    else
      match loads line with
      | some m => m :: parseJsonLinesGo loads rest
      | none => parseJsonLinesGo loads rest

/-- Embedding of `ClineWrapper._parse_json_lines` from `cline.py`. -/
def parse_json_lines (loads : String → Option JsonMsg) (output : String) : List JsonMsg :=
  parseJsonLinesGo loads (splitLines output)

/-- The filter inside the `text_output` loop: a message contributes its text
exactly when `msg.get("type") == "say" and msg.get("text")` is truthy. -/
def sayText (m : JsonMsg) : Option String :=
  match m.text? with
  | some t => if m.type? = some "say" ∧ t ≠ "" then some t else none
  | none => none

/-- Loop of the `text_output` property: collect the `text` of every
"say"-kind message in order. -/
def textParts : List JsonMsg → List String
  | [] => []
  | m :: rest =>
    match sayText m with
    | some t => t :: textParts rest
    | none => textParts rest

/-- Embedding of the `ClineResult.text_output` property from `cline.py`:
`"\n".join(parts)` over the say-parts when any JSON message was parsed,
otherwise the raw stdout. -/
def ClineResult.text_output (r : ClineResult) : String :=
  match r.json_messages with
  | [] => r.stdout
  | _ :: _ => String.intercalate "\n" (textParts r.json_messages)

/-- Modelled from the spec: "parses stdout line-by-line as independent JSON
objects, silently discarding unparsable lines" expressed as a one-pass
filter pipeline, to be compared against the source loop. -/
def parseJsonLinesSpec (loads : String → Option JsonMsg) (output : String) : List JsonMsg :=
  (((splitLines output).map String.trim).filter (fun l => l ≠ "")).filterMap loads

theorem parseJsonLinesGo_eq (loads : String → Option JsonMsg) (ls : List String) :
    parseJsonLinesGo loads ls = ((ls.map String.trim).filter (fun l => l ≠ "")).filterMap loads := by
  induction ls with
  | nil => rfl
  | cons a rest ih =>
    simp only [parseJsonLinesGo, List.map_cons, List.filter_cons]
    by_cases h : a.trim = ""
    · simp [h, ih]
    · simp only [h, if_neg h]
      cases hl : loads a.trim with
      | some m => simp [hl, ih, List.filterMap_cons, h]
      | none => simp [hl, ih, List.filterMap_cons, h]

theorem textParts_eq (ms : List JsonMsg) : textParts ms = ms.filterMap sayText := by
  induction ms with
  | nil => rfl
  | cons m rest ih =>
    simp only [textParts, List.filterMap_cons]
    cases sayText m <;> simp [ih]

/-- C8: in structured (JSON) mode, stdout is parsed line-by-line as
independent JSON objects, with blank lines and lines the JSON decoder
rejects silently discarded (the parse loop equals the filter pipeline
written from the spec); and the text accessor returns the newline-joined
text of the parsed messages of kind "say" (those with a non-empty text
field), falling back to the raw stdout when no JSON messages were parsed. -/
theorem C8_structured_mode_parsing (loads : String → Option JsonMsg) (output : String)
    (r : ClineResult) :
    parse_json_lines loads output = parseJsonLinesSpec loads output ∧
    r.text_output =
      (if r.json_messages = [] then r.stdout
       else String.intercalate "\n" (r.json_messages.filterMap sayText)) := by
  constructor
  · simpa [parse_json_lines, parseJsonLinesSpec] using
      parseJsonLinesGo_eq loads (splitLines output)
  · cases h : r.json_messages with
    | nil => simp [ClineResult.text_output, h]
    | cons m rest => simp [ClineResult.text_output, h, ← textParts_eq]

/-- What happened after the agent process was successfully spawned, as seen
by the body of `ClineWrapper._run`: the streams were drained and the process
reaped (`completed`, with its final `proc.returncode` and the chunk lists
accumulated by the two `read_stream` readers), or the `asyncio.wait_for`
deadline expired (`timedOut`, with the chunks read so far and the
returncode observed after the kill), or some other exception escaped the
inner block (`raised` with its message). -/
inductive RunOutcome where
  | completed (returncode : Option Int) (out_chunks err_chunks : List String)
  | timedOut (returncode : Option Int) (out_chunks err_chunks : List String)
  | raised (msg : String)
deriving Repr, DecidableEq

/-- Outcome of `asyncio.create_subprocess_exec`: the binary was missing
(`FileNotFoundError`), spawning raised some other exception, or a process
was obtained. -/
inductive SpawnOutcome where
  | fileNotFound
  | raised (msg : String)
  | spawned (run : RunOutcome)
deriving Repr, DecidableEq

/-- Observable outcome of one `ClineWrapper._run` call: the returned
`ClineResult` plus whether `proc.kill()` was issued and whether the process
was reclaimed with `await proc.wait()`.  The function is total: `_run`
catches every exception, which the embedding reflects by construction. -/
structure RunTrace where
  result : ClineResult
  killed : Bool
  reclaimed : Bool
deriving Repr, DecidableEq

/-- Embedding of `ClineWrapper._run` from `cline.py`.  `timeout or
self.default_timeout` is modelled on `Option Nat` with Python falsiness of
`0`; `json.loads` is the `loads` parameter, as in `parse_json_lines`. -/
def cline_run (binary : String) (json_output : Bool) (default_timeout : Nat)
    (timeout : Option Nat) (loads : String → Option JsonMsg)
    (spawn : SpawnOutcome) : RunTrace :=
  let effective_timeout :=
    match timeout with
    | some t => if t = 0 then default_timeout else t
    | none => default_timeout
  match spawn with
  | .fileNotFound =>
    { result := { success := false, exit_code := 127,
                  error := "Cline CLI not found (" ++ binary ++ "). Install with: npm install -g cline" },
      killed := false, reclaimed := false }
  | .raised msg =>
    { result := { success := false, exit_code := 1, error := msg },
      killed := false, reclaimed := false }
  | .spawned run =>
    match run with
    | .raised msg =>
      -- an exception out of the streaming block reaches the outer handler:
      -- stdout/stderr/exit_code assignments are skipped
      { result := { success := false, exit_code := 1, error := msg },
        killed := false, reclaimed := false }
    | .completed rc outs errs =>
      let stdout := String.join outs
      let stderr := String.join errs
      let exit_code := rc.getD 0          -- `proc.returncode or 0`
      let error := ""
      let success := exit_code == 0 && error == ""
      let msgs := if json_output && stdout ≠ "" then parse_json_lines loads stdout else []
      { result := { exit_code := exit_code, stdout := stdout, stderr := stderr,
                    success := success, error := error, json_messages := msgs },
        killed := false, reclaimed := true }
    | .timedOut rc outs errs =>
      let stdout := String.join outs
      let stderr := String.join errs
      let exit_code := rc.getD 0
      let error := "Timed out after " ++ toString effective_timeout ++ "s"
      let success := exit_code == 0 && error == ""
      let msgs := if json_output && stdout ≠ "" then parse_json_lines loads stdout else []
      { result := { exit_code := exit_code, stdout := stdout, stderr := stderr,
                    success := success, error := error, json_messages := msgs },
        killed := true, reclaimed := true }

theorem timed_out_msg_ne_empty (n : Nat) : "Timed out after " ++ toString n ++ "s" ≠ "" := by
  intro h
  have hl := congrArg String.length h
  rw [String.length_append, String.length_append] at hl
  have h1 : ("Timed out after ").length = 16 := rfl
  have h0 : ("" : String).length = 0 := rfl
  omega

theorem not_found_msg_ne_empty (b : String) :
    "Cline CLI not found (" ++ b ++ "). Install with: npm install -g cline" ≠ "" := by
  intro h
  have hl := congrArg String.length h
  rw [String.length_append, String.length_append] at hl
  have h1 : ("Cline CLI not found (").length = 21 := rfl
  have h0 : ("" : String).length = 0 := rfl
  omega

/-- C5: `_run` (hence `invoke`) always returns an `AgentInvocation` value --
the embedding is a total function, every exception path being caught and
turned into data.  A missing binary, a spawn-time exception, a runtime
exception while streaming, and a wall-clock timeout each produce
`success = false` with a non-empty error string (for raised exceptions, the
exception's own non-empty message); on timeout the process is force-killed
and reclaimed with `proc.wait` before the result is returned. -/
theorem C5_invoke_failure_as_data (binary : String) (json_output : Bool)
    (default_timeout : Nat) (timeout : Option Nat) (loads : String → Option JsonMsg)
    (spawn : SpawnOutcome) :
    (spawn = .fileNotFound →
      (cline_run binary json_output default_timeout timeout loads spawn).result.success = false ∧
      (cline_run binary json_output default_timeout timeout loads spawn).result.error ≠ "") ∧
    (∀ msg, msg ≠ "" → spawn = .raised msg →
      (cline_run binary json_output default_timeout timeout loads spawn).result.success = false ∧
      (cline_run binary json_output default_timeout timeout loads spawn).result.error = msg) ∧
    (∀ msg, msg ≠ "" → spawn = .spawned (.raised msg) →
      (cline_run binary json_output default_timeout timeout loads spawn).result.success = false ∧
      (cline_run binary json_output default_timeout timeout loads spawn).result.error = msg) ∧
    (∀ rc outs errs, spawn = .spawned (.timedOut rc outs errs) →
      (cline_run binary json_output default_timeout timeout loads spawn).result.success = false ∧
      (cline_run binary json_output default_timeout timeout loads spawn).result.error ≠ "" ∧
      (cline_run binary json_output default_timeout timeout loads spawn).killed = true ∧
      (cline_run binary json_output default_timeout timeout loads spawn).reclaimed = true) := by
  refine ⟨?_, ?_, ?_, ?_⟩
  · rintro rfl
    exact ⟨rfl, not_found_msg_ne_empty binary⟩
  · rintro msg hm rfl
    refine ⟨?_, rfl⟩
    simp [cline_run]
  · rintro msg hm rfl
    refine ⟨?_, rfl⟩
    simp [cline_run]
  · rintro rc outs errs rfl
    refine ⟨?_, timed_out_msg_ne_empty _, rfl, rfl⟩
    simp [cline_run, timed_out_msg_ne_empty]

/-- Closed instance of C5 at concrete inputs, one per failure mode. -/
theorem C5_invoke_failure_as_data_witness :
    ((cline_run "cline" false 600 (some 30) (fun _ => none) .fileNotFound).result.success = false ∧
      (cline_run "cline" false 600 (some 30) (fun _ => none) .fileNotFound).result.error ≠ "") ∧
    ((cline_run "cline" false 600 (some 30) (fun _ => none) (.raised "boom")).result.success = false ∧
      (cline_run "cline" false 600 (some 30) (fun _ => none) (.raised "boom")).result.error = "boom") ∧
    ((cline_run "cline" false 600 (some 30) (fun _ => none)
        (.spawned (.raised "oops"))).result.success = false ∧
      (cline_run "cline" false 600 (some 30) (fun _ => none)
        (.spawned (.raised "oops"))).result.error = "oops") ∧
    ((cline_run "cline" false 600 (some 30) (fun _ => none)
        (.spawned (.timedOut (some (-9)) ["partial\n"] []))).result.success = false ∧
      (cline_run "cline" false 600 (some 30) (fun _ => none)
        (.spawned (.timedOut (some (-9)) ["partial\n"] []))).killed = true ∧
      (cline_run "cline" false 600 (some 30) (fun _ => none)
        (.spawned (.timedOut (some (-9)) ["partial\n"] []))).reclaimed = true) := by
  refine ⟨?_, ?_, ?_, ?_⟩
  · exact (C5_invoke_failure_as_data "cline" false 600 (some 30) (fun _ => none)
      .fileNotFound).1 rfl
  · exact (C5_invoke_failure_as_data "cline" false 600 (some 30) (fun _ => none)
      (.raised "boom")).2.1 "boom" (by decide) rfl
  · exact (C5_invoke_failure_as_data "cline" false 600 (some 30) (fun _ => none)
      (.spawned (.raised "oops"))).2.2.1 "oops" (by decide) rfl
  · have h := (C5_invoke_failure_as_data "cline" false 600 (some 30) (fun _ => none)
      (.spawned (.timedOut (some (-9)) ["partial\n"] []))).2.2.2 (some (-9)) ["partial\n"] [] rfl
    exact ⟨h.1, h.2.2.1, h.2.2.2⟩

/-- Outcome of the test subprocess as seen by `Propagator._run_tests`:
either `communicate()` finished within the `wait_for` window (`done`, with
the final `proc.returncode` and the decoded combined stdout+stderr text --
stderr is redirected to stdout at spawn), or `asyncio.TimeoutError` was
raised. -/
inductive TestProcOutcome where
  | done (returncode : Option Int) (combined : String)
  | timedOut
deriving Repr, DecidableEq

/-- Observable outcome of one `_run_tests` call: the returned
`(passed, output)` pair, whether `proc.kill()` was issued, and the timeout
passed to `asyncio.wait_for` (`none` when no subprocess was spawned). -/
structure TestRunTrace where
  passed : Bool
  output : String
  killed : Bool
  timeout_applied : Option Nat
deriving Repr, DecidableEq

/-- The timeout literal hard-coded in `_run_tests` (`timeout=120`). -/
def test_timeout : Nat := 120

/-- Embedding of `Propagator._run_tests` from `propagator.py`.  Note that
the function reads nothing from `Settings`: the wait window is the
`test_timeout` literal, not `timeout_per_repo`. -/
def run_tests (test_cmd : String) (proc : TestProcOutcome) : TestRunTrace :=
  if test_cmd = "" then
    { passed := true, output := "", killed := false, timeout_applied := none }
  else
    match proc with
    | .done rc out =>
      -- `return proc.returncode == 0, output`
      { passed := rc == some 0, output := out, killed := false,
        timeout_applied := some test_timeout }
    | .timedOut =>
      { passed := false, output := "Test command timed out", killed := true,
        timeout_applied := some test_timeout }

/-- C10: every test execution waits under the fixed 120-second timeout
(`run_tests` takes no run configuration at all, so the window is
independent of the configured per-repo timeout); on expiry the process is
killed and the result is `(false, "Test command timed out")`; otherwise the
result passes exactly when the command exited 0, with the combined
stdout/stderr text as output; and a repo with no test command yields
`(true, "")` without spawning anything. -/
theorem C10_run_tests_contract (test_cmd : String) (proc : TestProcOutcome) :
    (test_cmd = "" →
      run_tests test_cmd proc =
        { passed := true, output := "", killed := false, timeout_applied := none }) ∧
    (test_cmd ≠ "" → (run_tests test_cmd proc).timeout_applied = some 120) ∧
    (test_cmd ≠ "" → proc = .timedOut →
      run_tests test_cmd proc =
        { passed := false, output := "Test command timed out", killed := true,
          timeout_applied := some 120 }) ∧
    (∀ rc out, test_cmd ≠ "" → proc = .done rc out →
      ((run_tests test_cmd proc).passed = true ↔ rc = some 0) ∧
      (run_tests test_cmd proc).output = out ∧
      (run_tests test_cmd proc).killed = false) := by
  refine ⟨?_, ?_, ?_, ?_⟩
  · intro h; simp [run_tests, h]
  · intro h
    cases proc <;> simp [run_tests, h, test_timeout]
  · rintro h rfl; simp [run_tests, h, test_timeout]
  · rintro rc out h rfl
    refine ⟨?_, ?_, ?_⟩ <;> simp [run_tests, h]

/-- Closed instance of C10 at concrete inputs covering each branch. -/
theorem C10_run_tests_contract_witness :
    (run_tests "" .timedOut =
      { passed := true, output := "", killed := false, timeout_applied := none }) ∧
    (run_tests "pytest" .timedOut =
      { passed := false, output := "Test command timed out", killed := true,
        timeout_applied := some 120 }) ∧
    ((run_tests "pytest" (.done (some 0) "3 passed")).passed = true ↔ some 0 = some (0 : Int)) ∧
    (run_tests "pytest" (.done (some 2) "1 failed")).passed = false := by
  refine ⟨?_, ?_, ?_, ?_⟩
  · exact (C10_run_tests_contract "" .timedOut).1 rfl
  · exact (C10_run_tests_contract "pytest" .timedOut).2.2.1 (by decide) rfl
  · have h := ((C10_run_tests_contract "pytest" (.done (some 0) "3 passed")).2.2.2
      (some 0) "3 passed" (by decide) rfl).1
    simpa using h
  · have h := ((C10_run_tests_contract "pytest" (.done (some 2) "1 failed")).2.2.2
      (some 2) "1 failed" (by decide) rfl).1
    by_contra hb
    have : (run_tests "pytest" (.done (some 2) "1 failed")).passed = true := by
      cases hp : (run_tests "pytest" (.done (some 2) "1 failed")).passed
      · exact absurd hp hb
      · rfl
    exact absurd (h.mp this) (by decide)

namespace Status

/-- Status constants from `propagator.py`. -/
abbrev WAITING : String := "waiting"

abbrev BRANCHING : String := "branching"

abbrev ADAPTING : String := "adapting"

abbrev TESTING : String := "testing"

abbrev FIXING : String := "fixing"

abbrev REVIEWING : String := "reviewing"

abbrev COMMITTING : String := "committing"

abbrev PUSHING : String := "pushing"

abbrev DONE : String := "done"

abbrev FAILED : String := "failed"

abbrev SKIPPED : String := "skipped"

end Status

/-- Embedding of the `RepoResult` dataclass (timestamps omitted: no claim
depends on wall-clock time). -/
structure RepoResult where
  repo_name : String := ""
  repo_path : String := ""
  language : String := ""
  status : String := Status.WAITING
  branch : String := ""
  adapt_result : Option ClineResult := none
  test_passed : Bool := false
  test_output : String := ""
  review_summary : String := ""
  files_changed : List String := []
  diff_stat : String := ""
  error : String := ""
  retries_used : Nat := 0
  pr_url : String := ""
  pushed : Bool := false
deriving Repr, DecidableEq

/-- Embedding of `Settings` from `config.py`.  `branchPrefix` models the
`branch_prefix` field. -/
structure Settings where
  max_parallel : Nat := 4
  timeout_per_repo : Nat := 600
  auto_branch : Bool := true
  branchPrefix : String := "cascade/"
  retry_on_test_fail : Bool := true
  max_retries : Nat := 2
  model : String := ""
deriving Repr, DecidableEq

/-- Embedding of `RepoConfig` from `config.py`. -/
structure RepoConfig where
  name : String
  path : String := "."
  role : String := "consumer"
  language : String := "unknown"
  test_cmd : String := ""
  github : String := ""
deriving Repr, DecidableEq

/-- `RepoConfig.is_github`: truthiness of the `github` string. -/
def RepoConfig.is_github (r : RepoConfig) : Bool := r.github ≠ ""

/-- Result of `github_ops.create_pr` as consumed by the pipeline. -/
structure PRResult where
  success : Bool := false
  pr_url : String := ""
deriving Repr, DecidableEq

/-- Environment of one `_handle_repo` run: the outcome of every external
operation the pipeline may perform, in order of use.  Git operations are
`Except String` values -- `Except.error msg` models the operation raising an
exception with message `msg` (`GitError` or any other).  Agent invocations
are plain `ClineResult`s because `ClineWrapper.invoke` never raises
(theorem `C5_invoke_failure_as_data`).  `runTest i` is the outcome of the
i-th test execution (`i = 0` for the initial run after adapting, `i = k`
for the run after the k-th fix attempt); `fixInvoke k` is the (discarded)
result of the k-th fix invocation. -/
structure PipeEnv where
  ensure_repo : Except String Unit
  current_branch : Except String String
  create_branch : Except String Unit
  checkout : String → Except String Unit
  has_changes : Except String Bool
  adapt : ClineResult
  fixInvoke : Nat → ClineResult
  runTest : Nat → Bool × String
  diff : Except String String
  review : ClineResult
  stage_all : Except String Unit
  has_staged_changes : Except String Bool
  diff_name_only : Except String (List String)
  diff_stat : Except String String
  commit : Except String Unit
  pushBranch : Except String (Bool × String)
  createPr : Except String PRResult

/-- Instrumented state of one pipeline run: the `RepoResult` being mutated,
the sequence of statuses assigned to it (in assignment order, for the
stickiness and stage-reachability claims), every value ever assigned to
`retries_used` (for the at-all-times bound of C1), the branch the working
tree currently has checked out (`wt`), and the recorded rollback branch
(`base?`, `none` before `current_branch` returned). -/
structure PipeState where
  result : RepoResult
  trace : List String := []
  retriesHist : List Nat := []
  wt : String := ""
  base? : Option String := none
deriving Repr, DecidableEq

/-- A `result.status = s` assignment (every one is traced). -/
def setStatusP (s : String) (st : PipeState) : PipeState :=
  { st with result := { st.result with status := s }, trace := st.trace ++ [s] }

/-- A `result.error = e` assignment. -/
def setErrorP (e : String) (st : PipeState) : PipeState :=
  { st with result := { st.result with error := e } }

/-- The `except Exception` handler at the bottom of `_handle_repo`: set
`FAILED` and the exception message, then best-effort checkout of the
rollback branch (a second failure is swallowed; when the exception predates
the `base_branch` assignment, the resulting `NameError` is swallowed the
same way). -/
def failWith (env : PipeEnv) (e : String) (st : PipeState) : PipeState :=
  let st1 := setErrorP e (setStatusP Status.FAILED st)
  match st.base? with    -- the two setters do not touch base?
  | none => st1
  | some b =>
    match env.checkout b with
    | .ok _ => { st1 with wt := b }
    | .error _ => st1

/-- A terminal `await git.checkout(base_branch)` followed by `return`: on
success the tree is back on `b`; an exception falls to the outer handler. -/
def checkoutEnd (env : PipeEnv) (b : String) (st : PipeState) : PipeState :=
  match env.checkout b with
  | .ok _ => { st with wt := b }
  | .error e => failWith env e st

/-- Steps 7 end: mark `DONE` and return to the base branch. -/
def stageDone (env : PipeEnv) (base : String) (st : PipeState) : PipeState :=
  let st := setStatusP Status.DONE st
  checkoutEnd env base st

/-- Step 7: push branch and create PR for GitHub repos; the inner
`try/except` turns any exception into a warning, and a push that reports
failure skips the PR without failing the pipeline. -/
def stagePush (env : PipeEnv) (cfg : RepoConfig) (base : String) (st : PipeState) : PipeState :=
  if cfg.is_github then
    let st := setStatusP Status.PUSHING st
    let st :=
      match env.pushBranch with
      | .error _ => st
      | .ok (ok, _err) =>
        if ok then
          let st := { st with result := { st.result with pushed := true } }
          match env.createPr with
          | .error _ => st
          | .ok pr =>
            if pr.success then { st with result := { st.result with pr_url := pr.pr_url } }
            else st
        else st
    stageDone env base st
  else stageDone env base st

/-- Step 6: stage everything; when anything is staged, capture the changed
files and diff stat and commit. -/
def stageCommit (env : PipeEnv) (cfg : RepoConfig) (base : String) (st : PipeState) : PipeState :=
  let st := setStatusP Status.COMMITTING st
  match env.stage_all with
  | .error e => failWith env e st
  | .ok _ =>
    match env.has_staged_changes with
    | .error e => failWith env e st
    | .ok false => stagePush env cfg base st
    | .ok true =>
      match env.diff_name_only with
      | .error e => failWith env e st
      | .ok files =>
        match env.diff_stat with
        | .error e => failWith env e st
        | .ok ds =>
          let st := { st with result := { st.result with files_changed := files, diff_stat := ds } }
          match env.commit with
          | .error e => failWith env e st
          | .ok _ => stagePush env cfg base st

/-- Step 5: compute the working diff; when it is non-empty, invoke the
agent in structured review mode and store its `text_output` as the review
summary (the invocation result's success flag is never consulted). -/
def stageReview (env : PipeEnv) (cfg : RepoConfig) (base : String) (st : PipeState) : PipeState :=
  let st := setStatusP Status.REVIEWING st
  match env.diff with
  | .error e => failWith env e st
  | .ok d =>
    let st :=
      if d = "" then st
      else { st with result := { st.result with review_summary := (env.review).text_output } }
    stageCommit env cfg base st

/-- The fix loop of step 4 (`while not test_passed and
settings.retry_on_test_fail and retries < settings.max_retries`).  `fuel`
encodes `max_retries - retries`, so the loop guard `retries < max_retries`
is `fuel ≠ 0`; every call keeps `fuel + retries = max_retries`.  Each
iteration bumps the counter, enters `FIXING`, records `retries_used`, runs
the (discarded) fix invocation, and re-runs the tests. -/
def fixLoopP (env : PipeEnv) (s : Settings) :
    Nat → Nat → Bool → String → PipeState → Bool × PipeState
  | fuel, retries, tp, _tout, st =>
    if !tp && s.retry_on_test_fail then
      match fuel with
      | 0 => (tp, st)
      | fuel' + 1 =>
        let retries' := retries + 1
        let st := setStatusP Status.FIXING st
        let st := { st with result := { st.result with retries_used := retries' },
                            retriesHist := st.retriesHist ++ [retries'] }
        let _fix := env.fixInvoke retries'
        let r := env.runTest retries'
        let st := { st with result := { st.result with test_output := r.2 } }
        fixLoopP env s fuel' retries' r.1 r.2 st
    else (tp, st)

/-- Steps 3-4: when a test command is configured, run the tests, drive the
fix loop, and fail terminally when they still do not pass; otherwise mark
`test_passed` outright. -/
def stageTest (env : PipeEnv) (cfg : RepoConfig) (s : Settings) (base : String)
    (st : PipeState) : PipeState :=
  if cfg.test_cmd = "" then
    stageReview env cfg base { st with result := { st.result with test_passed := true } }
  else
    let st := setStatusP Status.TESTING st
    let r0 := env.runTest 0
    let st := { st with result := { st.result with test_output := r0.2 } }
    let lr := fixLoopP env s s.max_retries 0 r0.1 r0.2 st
    let tp := lr.1
    let st := { lr.2 with result := { lr.2.result with test_passed := tp } }
    if tp then stageReview env cfg base st
    else
      let st := setErrorP "Tests failed after retries" (setStatusP Status.FAILED st)
      checkoutEnd env base st

/-- Step 2: invoke the agent; on an unsuccessful invocation fail terminally
(`adapt_result.error or "Cline adaptation failed"`); when it succeeds but
the tree is unchanged, skip terminally ("No file changes produced"). -/
def stageAdapt (env : PipeEnv) (cfg : RepoConfig) (s : Settings) (base : String)
    (st : PipeState) : PipeState :=
  let st := setStatusP Status.ADAPTING st
  let ar := env.adapt
  let st := { st with result := { st.result with adapt_result := some ar } }
  if ar.success then
    match env.has_changes with
    | .error e => failWith env e st
    | .ok true => stageTest env cfg s base st
    | .ok false =>
      let st := setErrorP "No file changes produced" (setStatusP Status.SKIPPED st)
      checkoutEnd env base st
  else
    let st := setErrorP (if ar.error = "" then "Cline adaptation failed" else ar.error)
      (setStatusP Status.FAILED st)
    checkoutEnd env base st

/-- Step 1: enter `BRANCHING`, `git checkout -b` the work branch (falling
back to a plain checkout when creation raises), record the branch name, and
either stop for a dry run (terminal `SKIPPED`) or continue to adapting. -/
def stageBranch (env : PipeEnv) (cfg : RepoConfig) (s : Settings) (dry_run : Bool)
    (base : String) (st : PipeState) : PipeState :=
  let st := setStatusP Status.BRANCHING st
  let branch_name := s.branchPrefix ++ cfg.name
  let proceed := fun (st : PipeState) =>
    let st := { st with result := { st.result with branch := branch_name } }
    if dry_run then
      let st := setStatusP Status.SKIPPED st
      checkoutEnd env base st
    else stageAdapt env cfg s base st
  match env.create_branch with
  | .ok _ => proceed { st with wt := branch_name }
  | .error _ =>
    match env.checkout branch_name with
    | .ok _ => proceed { st with wt := branch_name }
    | .error e => failWith env e st

/-- Fresh state for a repo, mirroring the `RepoResult(...)` construction in
`Propagator.run`. -/
def initState (cfg : RepoConfig) : PipeState :=
  { result := { repo_name := cfg.name, repo_path := cfg.path, language := cfg.language } }

/-- Embedding of `Propagator._handle_repo` from `propagator.py`: ensure the
repo exists, record the rollback branch, then drive the staged pipeline;
any exception escaping a stage lands in `failWith`. -/
def handle_repo (env : PipeEnv) (cfg : RepoConfig) (s : Settings) (dry_run : Bool) : PipeState :=
  let st := initState cfg
  match env.ensure_repo with
  | .error e => failWith env e st
  | .ok _ =>
    match env.current_branch with
    | .error e => failWith env e st
    | .ok base =>
      let st := { st with base? := some base, wt := base }
      stageBranch env cfg s dry_run base st

@[simp] theorem setStatusP_result (s : String) (st : PipeState) :
    (setStatusP s st).result = { st.result with status := s } := rfl

@[simp] theorem setStatusP_trace (s : String) (st : PipeState) :
    (setStatusP s st).trace = st.trace ++ [s] := rfl

@[simp] theorem setStatusP_retriesHist (s : String) (st : PipeState) :
    (setStatusP s st).retriesHist = st.retriesHist := rfl

@[simp] theorem setStatusP_wt (s : String) (st : PipeState) :
    (setStatusP s st).wt = st.wt := rfl

@[simp] theorem setStatusP_base (s : String) (st : PipeState) :
    (setStatusP s st).base? = st.base? := rfl

@[simp] theorem setErrorP_result (e : String) (st : PipeState) :
    (setErrorP e st).result = { st.result with error := e } := rfl

@[simp] theorem setErrorP_trace (e : String) (st : PipeState) :
    (setErrorP e st).trace = st.trace := rfl

@[simp] theorem setErrorP_retriesHist (e : String) (st : PipeState) :
    (setErrorP e st).retriesHist = st.retriesHist := rfl

@[simp] theorem setErrorP_wt (e : String) (st : PipeState) :
    (setErrorP e st).wt = st.wt := rfl

@[simp] theorem setErrorP_base (e : String) (st : PipeState) :
    (setErrorP e st).base? = st.base? := rfl

@[simp] theorem failWith_result (env : PipeEnv) (e : String) (st : PipeState) :
    (failWith env e st).result = { st.result with status := Status.FAILED, error := e } := by
  unfold failWith
  split
  · rfl
  · split <;> rfl

@[simp] theorem failWith_trace (env : PipeEnv) (e : String) (st : PipeState) :
    (failWith env e st).trace = st.trace ++ [Status.FAILED] := by
  unfold failWith
  split
  · rfl
  · split <;> rfl

@[simp] theorem failWith_retriesHist (env : PipeEnv) (e : String) (st : PipeState) :
    (failWith env e st).retriesHist = st.retriesHist := by
  unfold failWith
  split
  · rfl
  · split <;> rfl

@[simp] theorem failWith_base (env : PipeEnv) (e : String) (st : PipeState) :
    (failWith env e st).base? = st.base? := by
  unfold failWith
  split
  · rfl
  · split <;> rfl

theorem failWith_wt_of_ok (env : PipeEnv) (e : String) (st : PipeState) (b : String)
    (hb : st.base? = some b) (hc : env.checkout b = Except.ok ()) :
    (failWith env e st).wt = b := by
  unfold failWith
  rw [hb]
  simp [hc]

theorem checkoutEnd_of_ok (env : PipeEnv) (b : String) (st : PipeState)
    (h : env.checkout b = Except.ok ()) :
    checkoutEnd env b st = { st with wt := b } := by
  simp [checkoutEnd, h]

/-- Frame facts about the stages after the fix loop: they never touch the
retry counter, its history, or the test flag, and the only statuses they
can append to the trace are their own. -/
def Frame (st st' : PipeState) : Prop :=
  st'.result.retries_used = st.result.retries_used ∧
  st'.retriesHist = st.retriesHist ∧
  st'.result.test_passed = st.result.test_passed ∧
  ∀ x ∈ st'.trace, x ∈ st.trace ∨ x = Status.REVIEWING ∨ x = Status.COMMITTING ∨
    x = Status.PUSHING ∨ x = Status.DONE ∨ x = Status.FAILED

theorem frame_refl (st : PipeState) : Frame st st :=
  ⟨rfl, rfl, rfl, fun x hx => Or.inl hx⟩

theorem frame_trans {a b c : PipeState} (h1 : Frame a b) (h2 : Frame b c) : Frame a c := by
  obtain ⟨r1, h1h, t1, tr1⟩ := h1
  obtain ⟨r2, h2h, t2, tr2⟩ := h2
  refine ⟨r2.trans r1, h2h.trans h1h, t2.trans t1, fun x hx => ?_⟩
  rcases tr2 x hx with hb | hs
  · exact tr1 x hb
  · exact Or.inr hs

theorem frame_setStatus (st : PipeState) (x : String)
    (hx : x = Status.REVIEWING ∨ x = Status.COMMITTING ∨ x = Status.PUSHING ∨
      x = Status.DONE ∨ x = Status.FAILED) :
    Frame st (setStatusP x st) := by
  refine ⟨by simp, by simp, by simp, fun y hy => ?_⟩
  simp only [setStatusP_trace, List.mem_append, List.mem_singleton] at hy
  rcases hy with hy | rfl
  · exact Or.inl hy
  · exact Or.inr hx

theorem frame_failWith (env : PipeEnv) (e : String) (st : PipeState) :
    Frame st (failWith env e st) := by
  refine ⟨by simp, by simp, by simp, fun y hy => ?_⟩
  simp only [failWith_trace, List.mem_append, List.mem_singleton] at hy
  rcases hy with hy | rfl
  · exact Or.inl hy
  · exact Or.inr (Or.inr (Or.inr (Or.inr (Or.inr rfl))))

theorem frame_checkoutEnd (env : PipeEnv) (b : String) (st : PipeState) :
    Frame st (checkoutEnd env b st) := by
  unfold checkoutEnd
  split
  · exact ⟨rfl, rfl, rfl, fun x hx => Or.inl hx⟩
  · exact frame_failWith env _ st

theorem frame_stageDone (env : PipeEnv) (base : String) (st : PipeState) :
    Frame st (stageDone env base st) := by
  unfold stageDone
  exact frame_trans (frame_setStatus st Status.DONE (by simp)) (frame_checkoutEnd env base _)

theorem frame_setResult (st : PipeState) (r : RepoResult)
    (h1 : r.retries_used = st.result.retries_used)
    (h3 : r.test_passed = st.result.test_passed) :
    Frame st { st with result := r } :=
  ⟨h1, rfl, h3, fun _ hx => Or.inl hx⟩

theorem frame_stagePush (env : PipeEnv) (cfg : RepoConfig) (base : String) (st : PipeState) :
    Frame st (stagePush env cfg base st) := by
  unfold stagePush
  split
  · have h1 : Frame st (setStatusP Status.PUSHING st) :=
      frame_setStatus st Status.PUSHING (by simp)
    refine frame_trans (frame_trans h1 ?_) (frame_stageDone env base _)
    split
    · exact frame_refl _
    · split
      · refine frame_trans (frame_setResult _ _ rfl rfl) ?_
        split
        · exact frame_refl _
        · split
          · exact frame_setResult _ _ rfl rfl
          · exact frame_refl _
      · exact frame_refl _
  · exact frame_stageDone env base st

theorem frame_stageCommit (env : PipeEnv) (cfg : RepoConfig) (base : String) (st : PipeState) :
    Frame st (stageCommit env cfg base st) := by
  unfold stageCommit
  have h1 : Frame st (setStatusP Status.COMMITTING st) :=
    frame_setStatus st Status.COMMITTING (by simp)
  split
  · exact frame_trans h1 (frame_failWith env _ _)
  · split
    · exact frame_trans h1 (frame_failWith env _ _)
    · exact frame_trans h1 (frame_stagePush env cfg base _)
    · split
      · exact frame_trans h1 (frame_failWith env _ _)
      · split
        · exact frame_trans h1 (frame_failWith env _ _)
        · split
          · exact frame_trans h1 (frame_trans (frame_setResult _ _ rfl rfl)
              (frame_failWith env _ _))
          · exact frame_trans h1 (frame_trans (frame_setResult _ _ rfl rfl)
              (frame_stagePush env cfg base _))

theorem frame_stageReview (env : PipeEnv) (cfg : RepoConfig) (base : String) (st : PipeState) :
    Frame st (stageReview env cfg base st) := by
  unfold stageReview
  have h1 : Frame st (setStatusP Status.REVIEWING st) :=
    frame_setStatus st Status.REVIEWING (by simp)
  split
  · exact frame_trans h1 (frame_failWith env _ _)
  · refine frame_trans h1 (frame_trans ?_ (frame_stageCommit env cfg base _))
    split
    · exact frame_refl _
    · exact frame_setResult _ _ rfl rfl

theorem fixLoopP_zero (env : PipeEnv) (s : Settings) (retries : Nat) (tp : Bool)
    (tout : String) (st : PipeState) :
    fixLoopP env s 0 retries tp tout st = (tp, st) := by
  by_cases hg : (!tp && s.retry_on_test_fail) = true <;> simp [fixLoopP, hg]

theorem fixLoopP_exit (env : PipeEnv) (s : Settings) (fuel retries : Nat) (tp : Bool)
    (tout : String) (st : PipeState) (hg : (!tp && s.retry_on_test_fail) = false) :
    fixLoopP env s fuel retries tp tout st = (tp, st) := by
  cases fuel <;> simp [fixLoopP, hg]

theorem fixLoopP_pass (env : PipeEnv) (s : Settings) (fuel retries : Nat)
    (tout : String) (st : PipeState) :
    fixLoopP env s fuel retries true tout st = (true, st) :=
  fixLoopP_exit env s fuel retries true tout st (by simp)

theorem fixLoopP_step (env : PipeEnv) (s : Settings) (fuel retries : Nat) (tp : Bool)
    (tout : String) (st : PipeState) (hg : (!tp && s.retry_on_test_fail) = true) :
    fixLoopP env s (fuel + 1) retries tp tout st =
      fixLoopP env s fuel (retries + 1) (env.runTest (retries + 1)).1
        (env.runTest (retries + 1)).2
        { st with
          result := { st.result with
                      status := Status.FIXING,
                      retries_used := retries + 1,
                      test_output := (env.runTest (retries + 1)).2 },
          trace := st.trace ++ [Status.FIXING],
          retriesHist := st.retriesHist ++ [retries + 1] } := by
  simp [fixLoopP, hg, setStatusP]

theorem fixLoopP_trace (env : PipeEnv) (s : Settings) :
    ∀ fuel retries tp tout st x, x ∈ (fixLoopP env s fuel retries tp tout st).2.trace →
      x ∈ st.trace ∨ x = Status.FIXING := by
  intro fuel
  induction fuel with
  | zero =>
    intro retries tp tout st x hx
    rw [fixLoopP_zero] at hx
    exact Or.inl hx
  | succ fuel ih =>
    intro retries tp tout st x hx
    by_cases hg : (!tp && s.retry_on_test_fail) = true
    · rw [fixLoopP_step env s fuel retries tp tout st hg] at hx
      rcases ih _ _ _ _ x hx with hm | hf
      · simp only [List.mem_append, List.mem_singleton] at hm
        rcases hm with hm | rfl
        · exact Or.inl hm
        · exact Or.inr rfl
      · exact Or.inr hf
    · rw [fixLoopP_exit env s _ _ _ _ _ (by simpa using hg)] at hx
      exact Or.inl hx

theorem fixLoopP_spec (env : PipeEnv) (s : Settings) :
    ∀ fuel retries tp tout st, fuel + retries = s.max_retries →
      st.result.retries_used = retries →
      (fixLoopP env s fuel retries tp tout st).2.result.retries_used ≤ s.max_retries ∧
      (s.retry_on_test_fail = true →
        (fixLoopP env s fuel retries tp tout st).1 = true ∨
        (fixLoopP env s fuel retries tp tout st).2.result.retries_used = s.max_retries) ∧
      ((∀ v ∈ st.retriesHist, v ≤ s.max_retries) →
        ∀ v ∈ (fixLoopP env s fuel retries tp tout st).2.retriesHist, v ≤ s.max_retries) ∧
      (fixLoopP env s fuel retries tp tout st).2.result.test_passed =
        st.result.test_passed := by
  intro fuel
  induction fuel with
  | zero =>
    intro retries tp tout st hfr hru
    rw [fixLoopP_zero]
    refine ⟨?_, fun _ => Or.inr ?_, fun h v hv => h v hv, rfl⟩
    · show st.result.retries_used ≤ s.max_retries
      omega
    · show st.result.retries_used = s.max_retries
      omega
  | succ fuel ih =>
    intro retries tp tout st hfr hru
    by_cases hg : (!tp && s.retry_on_test_fail) = true
    · rw [fixLoopP_step env s fuel retries tp tout st hg]
      obtain ⟨ih1, ih2, ih3, ih4⟩ := ih (retries + 1) (env.runTest (retries + 1)).1
        (env.runTest (retries + 1)).2
        { st with
          result := { st.result with
                      status := Status.FIXING,
                      retries_used := retries + 1,
                      test_output := (env.runTest (retries + 1)).2 },
          trace := st.trace ++ [Status.FIXING],
          retriesHist := st.retriesHist ++ [retries + 1] }
        (by omega) rfl
      refine ⟨ih1, ih2, fun h => ih3 ?_, ih4⟩
      intro v hv
      simp only [List.mem_append, List.mem_singleton] at hv
      rcases hv with hv | rfl
      · exact h v hv
      · omega
    · have hg2 : (!tp && s.retry_on_test_fail) = false := by simpa using hg
      rw [fixLoopP_exit env s _ _ _ _ _ hg2]
      refine ⟨?_, fun hr => Or.inl ?_, fun h v hv => h v hv, rfl⟩
      · show st.result.retries_used ≤ s.max_retries
        omega
      · show tp = true
        rw [hr, Bool.and_true] at hg2
        simpa using hg2

theorem fixLoopP_allfail (env : PipeEnv) (s : Settings)
    (h : ∀ i, (env.runTest i).1 = false) :
    ∀ fuel retries tout st, (fixLoopP env s fuel retries false tout st).1 = false := by
  intro fuel
  induction fuel with
  | zero =>
    intro retries tout st
    rw [fixLoopP_zero]
  | succ fuel ih =>
    intro retries tout st
    by_cases hg : (!false && s.retry_on_test_fail) = true
    · rw [fixLoopP_step env s fuel retries false tout st hg]
      rw [h (retries + 1)]
      exact ih _ _ _
    · rw [fixLoopP_exit env s _ _ _ _ _ (by simpa using hg)]

/-- Stickiness of the two terminal statuses, relative to the run trace: once
`FAILED` was assigned, the final status is `FAILED`; once `SKIPPED` was
assigned and the rollback checkout of `base` succeeds, the final status is
`SKIPPED`. -/
def Sticky (env : PipeEnv) (base : String) (st' : PipeState) : Prop :=
  (Status.FAILED ∈ st'.trace → st'.result.status = Status.FAILED) ∧
  (env.checkout base = Except.ok () → Status.SKIPPED ∈ st'.trace →
    st'.result.status = Status.SKIPPED)

theorem notMemAppend {x y : String} {l : List String} (h : x ∉ l) (hxy : x ≠ y) :
    x ∉ l ++ [y] := by
  simp [List.mem_append, h, hxy]

theorem sticky_failWith (env : PipeEnv) (base e : String) (st : PipeState)
    (hs : Status.SKIPPED ∉ st.trace) : Sticky env base (failWith env e st) := by
  constructor
  · intro _
    simp
  · intro _ hmem
    rw [failWith_trace] at hmem
    rcases List.mem_append.mp hmem with hmem | hmem
    · exact absurd hmem hs
    · rw [List.mem_singleton] at hmem
      exact absurd hmem (by decide)

theorem sticky_checkoutEnd_clean (env : PipeEnv) (base : String) (st : PipeState)
    (hf : Status.FAILED ∉ st.trace) (hs : Status.SKIPPED ∉ st.trace) :
    Sticky env base (checkoutEnd env base st) := by
  unfold checkoutEnd
  split
  · exact ⟨fun h => absurd h hf, fun _ h => absurd h hs⟩
  · exact sticky_failWith env base _ st hs

theorem sticky_checkoutEnd_failed (env : PipeEnv) (base : String) (st : PipeState)
    (hstat : st.result.status = Status.FAILED) (hs : Status.SKIPPED ∉ st.trace) :
    Sticky env base (checkoutEnd env base st) := by
  unfold checkoutEnd
  split
  · exact ⟨fun _ => hstat, fun _ h => absurd h hs⟩
  · exact sticky_failWith env base _ st hs

theorem sticky_checkoutEnd_skipped (env : PipeEnv) (base : String) (st : PipeState)
    (hstat : st.result.status = Status.SKIPPED) (hf : Status.FAILED ∉ st.trace) :
    Sticky env base (checkoutEnd env base st) := by
  unfold checkoutEnd
  split
  · exact ⟨fun h => absurd h hf, fun _ _ => hstat⟩
  · rename_i e heq
    refine ⟨fun _ => by simp, fun hco _ => ?_⟩
    rw [heq] at hco
    exact absurd hco (by simp)

theorem sticky_stageDone (env : PipeEnv) (base : String) (st : PipeState)
    (hf : Status.FAILED ∉ st.trace) (hs : Status.SKIPPED ∉ st.trace) :
    Sticky env base (stageDone env base st) := by
  unfold stageDone
  refine sticky_checkoutEnd_clean env base _ ?_ ?_
  · simpa using notMemAppend hf (by decide)
  · simpa using notMemAppend hs (by decide)

theorem sticky_stagePush (env : PipeEnv) (cfg : RepoConfig) (base : String) (st : PipeState)
    (hf : Status.FAILED ∉ st.trace) (hs : Status.SKIPPED ∉ st.trace) :
    Sticky env base (stagePush env cfg base st) := by
  have hf1 : Status.FAILED ∉ (setStatusP Status.PUSHING st).trace := by
    simpa using notMemAppend hf (by decide)
  have hs1 : Status.SKIPPED ∉ (setStatusP Status.PUSHING st).trace := by
    simpa using notMemAppend hs (by decide)
  unfold stagePush
  split
  · split
    · exact sticky_stageDone env base _ hf1 hs1
    · split
      · split
        · exact sticky_stageDone env base _ hf1 hs1
        · split
          · exact sticky_stageDone env base _ hf1 hs1
          · exact sticky_stageDone env base _ hf1 hs1
      · exact sticky_stageDone env base _ hf1 hs1
  · exact sticky_stageDone env base _ hf hs

theorem sticky_stageCommit (env : PipeEnv) (cfg : RepoConfig) (base : String) (st : PipeState)
    (hf : Status.FAILED ∉ st.trace) (hs : Status.SKIPPED ∉ st.trace) :
    Sticky env base (stageCommit env cfg base st) := by
  have hf1 : Status.FAILED ∉ (setStatusP Status.COMMITTING st).trace := by
    simpa using notMemAppend hf (by decide)
  have hs1 : Status.SKIPPED ∉ (setStatusP Status.COMMITTING st).trace := by
    simpa using notMemAppend hs (by decide)
  unfold stageCommit
  split
  · exact sticky_failWith env base _ _ hs1
  · split
    · exact sticky_failWith env base _ _ hs1
    · exact sticky_stagePush env cfg base _ hf1 hs1
    · split
      · exact sticky_failWith env base _ _ hs1
      · split
        · exact sticky_failWith env base _ _ hs1
        · split
          · exact sticky_failWith env base _ _ hs1
          · exact sticky_stagePush env cfg base _ hf1 hs1

theorem sticky_stageReview (env : PipeEnv) (cfg : RepoConfig) (base : String) (st : PipeState)
    (hf : Status.FAILED ∉ st.trace) (hs : Status.SKIPPED ∉ st.trace) :
    Sticky env base (stageReview env cfg base st) := by
  have hf1 : Status.FAILED ∉ (setStatusP Status.REVIEWING st).trace := by
    simpa using notMemAppend hf (by decide)
  have hs1 : Status.SKIPPED ∉ (setStatusP Status.REVIEWING st).trace := by
    simpa using notMemAppend hs (by decide)
  unfold stageReview
  split
  · exact sticky_failWith env base _ _ hs1
  · split
    · exact sticky_stageCommit env cfg base _ hf1 hs1
    · exact sticky_stageCommit env cfg base _ hf1 hs1

theorem notMem_fixLoop (env : PipeEnv) (s : Settings) (fuel retries : Nat) (tp : Bool)
    (tout : String) (st : PipeState) {x : String}
    (hx1 : x ∉ st.trace) (hx2 : x ≠ Status.FIXING) :
    x ∉ (fixLoopP env s fuel retries tp tout st).2.trace := by
  intro hmem
  rcases fixLoopP_trace env s fuel retries tp tout st x hmem with h | h
  · exact hx1 h
  · exact hx2 h

theorem sticky_stageTest (env : PipeEnv) (cfg : RepoConfig) (s : Settings) (base : String)
    (st : PipeState)
    (hf : Status.FAILED ∉ st.trace) (hs : Status.SKIPPED ∉ st.trace) :
    Sticky env base (stageTest env cfg s base st) := by
  unfold stageTest
  split
  · exact sticky_stageReview env cfg base _ hf hs
  · dsimp only
    split
    · apply sticky_stageReview
      · refine notMem_fixLoop env s _ _ _ _ _ ?_ (by decide)
        simpa using notMemAppend hf (by decide)
      · refine notMem_fixLoop env s _ _ _ _ _ ?_ (by decide)
        simpa using notMemAppend hs (by decide)
    · apply sticky_checkoutEnd_failed
      · simp
      · intro hmem
        simp only [setErrorP_trace, setStatusP_trace, List.mem_append,
          List.mem_singleton] at hmem
        rcases hmem with hmem | hmem
        · exact notMem_fixLoop env s _ _ _ _ _
            (by simpa using notMemAppend hs (by decide)) (by decide) hmem
        · exact absurd hmem (by decide)

theorem sticky_stageAdapt (env : PipeEnv) (cfg : RepoConfig) (s : Settings) (base : String)
    (st : PipeState)
    (hf : Status.FAILED ∉ st.trace) (hs : Status.SKIPPED ∉ st.trace) :
    Sticky env base (stageAdapt env cfg s base st) := by
  have hf1 : Status.FAILED ∉ (setStatusP Status.ADAPTING st).trace := by
    simpa using notMemAppend hf (by decide)
  have hs1 : Status.SKIPPED ∉ (setStatusP Status.ADAPTING st).trace := by
    simpa using notMemAppend hs (by decide)
  unfold stageAdapt
  dsimp only
  split
  · split
    · exact sticky_failWith env base _ _ hs1
    · exact sticky_stageTest env cfg s base _ hf1 hs1
    · apply sticky_checkoutEnd_skipped
      · simp
      · intro hmem
        simp only [setErrorP_trace, setStatusP_trace, List.mem_append,
          List.mem_singleton] at hmem
        rcases hmem with (hmem | hmem) | hmem
        · exact hf hmem
        · exact absurd hmem (by decide)
        · exact absurd hmem (by decide)
  · apply sticky_checkoutEnd_failed
    · simp
    · intro hmem
      simp only [setErrorP_trace, setStatusP_trace, List.mem_append,
        List.mem_singleton] at hmem
      rcases hmem with (hmem | hmem) | hmem
      · exact hs hmem
      · exact absurd hmem (by decide)
      · exact absurd hmem (by decide)

theorem sticky_stageBranch (env : PipeEnv) (cfg : RepoConfig) (s : Settings) (dry : Bool)
    (base : String) (st : PipeState)
    (hf : Status.FAILED ∉ st.trace) (hs : Status.SKIPPED ∉ st.trace) :
    Sticky env base (stageBranch env cfg s dry base st) := by
  have hf1 : Status.FAILED ∉ (setStatusP Status.BRANCHING st).trace := by
    simpa using notMemAppend hf (by decide)
  have hs1 : Status.SKIPPED ∉ (setStatusP Status.BRANCHING st).trace := by
    simpa using notMemAppend hs (by decide)
  unfold stageBranch
  dsimp only
  split
  · split
    · apply sticky_checkoutEnd_skipped
      · simp
      · intro hmem
        simp only [setStatusP_trace, List.mem_append, List.mem_singleton] at hmem
        rcases hmem with (hmem | hmem) | hmem
        · exact hf hmem
        · exact absurd hmem (by decide)
        · exact absurd hmem (by decide)
    · exact sticky_stageAdapt env cfg s base _ hf1 hs1
  · split
    · split
      · apply sticky_checkoutEnd_skipped
        · simp
        · intro hmem
          simp only [setStatusP_trace, List.mem_append, List.mem_singleton] at hmem
          rcases hmem with (hmem | hmem) | hmem
          · exact hf hmem
          · exact absurd hmem (by decide)
          · exact absurd hmem (by decide)
      · exact sticky_stageAdapt env cfg s base _ hf1 hs1
    · exact sticky_failWith env base _ _ hs1


/-- The retry-related facts C1 asserts about any final pipeline state. -/
def RetryInv (s : Settings) (env : PipeEnv) (st' : PipeState) : Prop :=
  st'.result.retries_used ≤ s.max_retries ∧
  (∀ v ∈ st'.retriesHist, v ≤ s.max_retries) ∧
  (s.retry_on_test_fail = true → Status.TESTING ∈ st'.trace →
    st'.result.test_passed = true ∨ st'.result.retries_used = s.max_retries) ∧
  ((env.runTest 0).1 = true → st'.result.retries_used = 0)

theorem retryInv_of_frame (s : Settings) (env : PipeEnv) (st1 st' : PipeState)
    (hfr : Frame st1 st')
    (h1 : st1.result.retries_used ≤ s.max_retries)
    (h2 : ∀ v ∈ st1.retriesHist, v ≤ s.max_retries)
    (h3 : s.retry_on_test_fail = true → Status.TESTING ∈ st1.trace →
      st1.result.test_passed = true ∨ st1.result.retries_used = s.max_retries)
    (h4 : (env.runTest 0).1 = true → st1.result.retries_used = 0) :
    RetryInv s env st' := by
  obtain ⟨hr, hh, htp, htr⟩ := hfr
  refine ⟨hr ▸ h1, hh ▸ h2, fun hrt hmem => ?_, fun h => hr.trans (h4 h)⟩
  rcases htr _ hmem with hmem | hsp
  · rw [hr, htp]
    exact h3 hrt hmem
  · rcases hsp with h | h | h | h | h <;> exact absurd h (by decide)

theorem retryInv_pretest (s : Settings) (env : PipeEnv) (st1 st' : PipeState)
    (hfr : Frame st1 st')
    (h0 : st1.result.retries_used = 0) (hh : st1.retriesHist = [])
    (ht : Status.TESTING ∉ st1.trace) :
    RetryInv s env st' := by
  refine retryInv_of_frame s env st1 st' hfr ?_ ?_ ?_ ?_
  · rw [h0]
    exact Nat.zero_le _
  · rw [hh]
    intro v hv
    exact absurd hv (List.not_mem_nil v)
  · intro _ hmem
    exact absurd hmem ht
  · intro _
    exact h0

theorem c1_stageTest (env : PipeEnv) (cfg : RepoConfig) (s : Settings) (base : String)
    (st : PipeState)
    (h0 : st.result.retries_used = 0) (hh : st.retriesHist = [])
    (ht : Status.TESTING ∉ st.trace) :
    RetryInv s env (stageTest env cfg s base st) := by
  unfold stageTest
  split
  · exact retryInv_pretest s env _ _ (frame_stageReview env cfg base _) h0 hh ht
  · dsimp only
    obtain ⟨sp1, sp2, sp3, sp4⟩ := fixLoopP_spec env s s.max_retries 0 (env.runTest 0).1
      (env.runTest 0).2
      { setStatusP Status.TESTING st with
        result := { (setStatusP Status.TESTING st).result with
                    test_output := (env.runTest 0).2 } }
      (by omega) (by simpa using h0)
    split
    · rename_i hpass
      refine retryInv_of_frame s env _ _ (frame_stageReview env cfg base _) sp1 ?_ ?_ ?_
      · refine sp3 ?_
        intro v hv
        simp [hh] at hv
      · intro _ _
        left
        simpa using hpass
      · intro h0t
        have hid := fixLoopP_pass env s s.max_retries 0 (env.runTest 0).2
          { setStatusP Status.TESTING st with
            result := { (setStatusP Status.TESTING st).result with
                        test_output := (env.runTest 0).2 } }
        rw [h0t] at *
        rw [hid]
        simpa using h0
    · rename_i hfailp
      refine retryInv_of_frame s env _ _ (frame_checkoutEnd env base _) ?_ ?_ ?_ ?_
      · simpa using sp1
      · simp only [setErrorP_retriesHist, setStatusP_retriesHist]
        refine sp3 ?_
        intro v hv
        simp [hh] at hv
      · intro hrt _
        rcases sp2 hrt with hp | hm
        · exact absurd hp (by simpa using hfailp)
        · right
          simpa using hm
      · intro h0t
        have hid := fixLoopP_pass env s s.max_retries 0 (env.runTest 0).2
          { setStatusP Status.TESTING st with
            result := { (setStatusP Status.TESTING st).result with
                        test_output := (env.runTest 0).2 } }
        rw [h0t] at hfailp
        rw [hid] at hfailp
        exact absurd rfl hfailp



theorem c1_stageAdapt (env : PipeEnv) (cfg : RepoConfig) (s : Settings) (base : String)
    (st : PipeState)
    (h0 : st.result.retries_used = 0) (hh : st.retriesHist = [])
    (ht : Status.TESTING ∉ st.trace) :
    RetryInv s env (stageAdapt env cfg s base st) := by
  have ht1 : Status.TESTING ∉ (setStatusP Status.ADAPTING st).trace := by
    simpa using notMemAppend ht (by decide)
  unfold stageAdapt
  dsimp only
  split
  · split
    · exact retryInv_pretest s env _ _ (frame_failWith env _ _) (by simpa using h0)
        (by simpa using hh) ht1
    · exact c1_stageTest env cfg s base _ (by simpa using h0) (by simpa using hh) ht1
    · refine retryInv_pretest s env _ _ (frame_checkoutEnd env base _) (by simpa using h0)
        (by simpa using hh) ?_
      intro hmem
      simp only [setErrorP_trace, setStatusP_trace, List.mem_append,
        List.mem_singleton] at hmem
      rcases hmem with (hmem | hmem) | hmem
      · exact ht hmem
      · exact absurd hmem (by decide)
      · exact absurd hmem (by decide)
  · refine retryInv_pretest s env _ _ (frame_checkoutEnd env base _) (by simpa using h0)
      (by simpa using hh) ?_
    intro hmem
    simp only [setErrorP_trace, setStatusP_trace, List.mem_append,
      List.mem_singleton] at hmem
    rcases hmem with (hmem | hmem) | hmem
    · exact ht hmem
    · exact absurd hmem (by decide)
    · exact absurd hmem (by decide)

theorem c1_stageBranch (env : PipeEnv) (cfg : RepoConfig) (s : Settings) (dry : Bool)
    (base : String) (st : PipeState)
    (h0 : st.result.retries_used = 0) (hh : st.retriesHist = [])
    (ht : Status.TESTING ∉ st.trace) :
    RetryInv s env (stageBranch env cfg s dry base st) := by
  have ht1 : Status.TESTING ∉ (setStatusP Status.BRANCHING st).trace := by
    simpa using notMemAppend ht (by decide)
  unfold stageBranch
  dsimp only
  split
  · split
    · refine retryInv_pretest s env _ _ (frame_checkoutEnd env base _) (by simpa using h0)
        (by simpa using hh) ?_
      intro hmem
      simp only [setStatusP_trace, List.mem_append, List.mem_singleton] at hmem
      rcases hmem with (hmem | hmem) | hmem
      · exact ht hmem
      · exact absurd hmem (by decide)
      · exact absurd hmem (by decide)
    · exact c1_stageAdapt env cfg s base _ (by simpa using h0) (by simpa using hh) ht1
  · split
    · split
      · refine retryInv_pretest s env _ _ (frame_checkoutEnd env base _) (by simpa using h0)
          (by simpa using hh) ?_
        intro hmem
        simp only [setStatusP_trace, List.mem_append, List.mem_singleton] at hmem
        rcases hmem with (hmem | hmem) | hmem
        · exact ht hmem
        · exact absurd hmem (by decide)
        · exact absurd hmem (by decide)
      · exact c1_stageAdapt env cfg s base _ (by simpa using h0) (by simpa using hh) ht1
    · exact retryInv_pretest s env _ _ (frame_failWith env _ _) (by simpa using h0)
        (by simpa using hh) ht1

theorem c1_handle_repo (env : PipeEnv) (cfg : RepoConfig) (s : Settings) (dry : Bool) :
    RetryInv s env (handle_repo env cfg s dry) := by
  unfold handle_repo
  dsimp only
  split
  · exact retryInv_pretest s env _ _ (frame_failWith env _ _) rfl rfl
      (List.not_mem_nil _)
  · split
    · exact retryInv_pretest s env _ _ (frame_failWith env _ _) rfl rfl
        (List.not_mem_nil _)
    · exact c1_stageBranch env cfg s dry _ _ rfl rfl (List.not_mem_nil _)


theorem handle_to_adapt (env : PipeEnv) (cfg : RepoConfig) (s : Settings) (base : String)
    (henr : env.ensure_repo = Except.ok ())
    (hcb : env.current_branch = Except.ok base)
    (hbr : env.create_branch = Except.ok () ∨
      (∃ e, env.create_branch = Except.error e ∧
        env.checkout (s.branchPrefix ++ cfg.name) = Except.ok ())) :
    handle_repo env cfg s false = stageAdapt env cfg s base
      { result := { repo_name := cfg.name, repo_path := cfg.path, language := cfg.language,
                    status := Status.BRANCHING, branch := s.branchPrefix ++ cfg.name },
        trace := [Status.BRANCHING], wt := s.branchPrefix ++ cfg.name,
        base? := some base } := by
  rcases hbr with hcr | ⟨e, hcr, hcof⟩
  · simp [handle_repo, stageBranch, initState, setStatusP, henr, hcb, hcr]
  · simp [handle_repo, stageBranch, initState, setStatusP, henr, hcb, hcr, hcof]

theorem stageTest_allfail_props (env : PipeEnv) (cfg : RepoConfig) (s : Settings)
    (base : String) (st : PipeState)
    (htc : cfg.test_cmd ≠ "")
    (hfail : ∀ i, (env.runTest i).1 = false)
    (hco : env.checkout base = Except.ok ()) :
    (stageTest env cfg s base st).result.status = Status.FAILED ∧
    (stageTest env cfg s base st).result.error = "Tests failed after retries" ∧
    (stageTest env cfg s base st).result.test_passed = false ∧
    (stageTest env cfg s base st).wt = base ∧
    (∀ x ∈ (stageTest env cfg s base st).trace,
      x ∈ st.trace ∨ x = Status.TESTING ∨ x = Status.FIXING ∨ x = Status.FAILED) := by
  have hall := fixLoopP_allfail env s hfail
  unfold stageTest
  simp only [if_neg htc]
  simp only [hfail 0, hall, if_false, Bool.false_eq_true, ite_false]
  rw [checkoutEnd_of_ok env base _ hco]
  refine ⟨by simp, by simp, by simp [hall], rfl, ?_⟩
  intro x hx
  simp only [setErrorP_trace, setStatusP_trace] at hx
  simp only [List.mem_append, List.mem_singleton] at hx
  rcases hx with hx | rfl
  · rcases fixLoopP_trace env s _ _ _ _ _ _ hx with h | h
    · simp only [setStatusP_trace, List.mem_append, List.mem_singleton] at h
      rcases h with h | rfl
      · exact Or.inl h
      · exact Or.inr (Or.inl rfl)
    · exact Or.inr (Or.inr (Or.inl h))
  · exact Or.inr (Or.inr (Or.inr rfl))

theorem adapt_to_test (env : PipeEnv) (cfg : RepoConfig) (s : Settings) (base : String)
    (st : PipeState)
    (hadapt : env.adapt.success = true) (hch : env.has_changes = Except.ok true) :
    stageAdapt env cfg s base st = stageTest env cfg s base
      { st with
        result := { st.result with
                    status := Status.ADAPTING,
                    adapt_result := some env.adapt },
        trace := st.trace ++ [Status.ADAPTING] } := by
  simp [stageAdapt, setStatusP, hadapt, hch]

/-- A fully healthy environment used to instantiate the universally
quantified theorems at concrete inputs. -/
def gOK : PipeEnv :=
  { ensure_repo := .ok (), current_branch := .ok "main", create_branch := .ok (),
    checkout := fun _ => .ok (), has_changes := .ok true,
    adapt := { success := true, stdout := "done" },
    fixInvoke := fun _ => {}, runTest := fun _ => (true, "3 passed"),
    diff := .ok "some diff", review := { success := true, stdout := "fine" },
    stage_all := .ok (), has_staged_changes := .ok true,
    diff_name_only := .ok ["a.py"], diff_stat := .ok "1 file changed",
    commit := .ok (), pushBranch := .ok (true, ""),
    createPr := .ok { success := true, pr_url := "https://pr/1" } }

/-- Environment whose test command never passes. -/
def gFailTests : PipeEnv := { gOK with runTest := fun _ => (false, "1 failed") }

/-- Environment whose checkout of the pre-run branch "main" raises. -/
def gBadCheckout : PipeEnv :=
  { gOK with checkout := fun b => if b = "main" then .error "disk error" else .ok () }

/-- Environment whose adapt invocation reports failure. -/
def gAdaptFail : PipeEnv :=
  { gOK with adapt := { success := false, error := "agent crashed" } }

/-- Environment whose adapt invocation succeeds but changes nothing. -/
def gNoChanges : PipeEnv := { gOK with has_changes := .ok false }

/-- Environment whose structured review invocation fails after producing
partial stdout. -/
def gRevFail : PipeEnv :=
  { gOK with review := { success := false, stdout := "partial out",
                         error := "Timed out after 120s" } }

/-- A repo with a configured test command. -/
def cfgTest : RepoConfig := { name := "api", path := "/repos/api", test_cmd := "pytest" }

/-- A repo without a test command. -/
def cfgNoTest : RepoConfig := { name := "web", path := "/repos/web" }

/-- Scenario-D-like settings: one retry. -/
def sOneRetry : Settings := { max_retries := 1 }

/-- C1: for every run of a repo pipeline with a configured test command and
retry-on-failure enabled, `retries_used` never exceeds `max_retries`
(including every intermediate value it is assigned, recorded in
`retriesHist`); the fix loop -- a bounded structural recursion, hence
terminating -- ends on a test pass or exactly at exhaustion (`retries_used
= max_retries` whenever the testing stage ran and tests still fail); and if
the first test run passes, `retries_used` stays 0. -/
theorem C1_fix_loop_bounded (env : PipeEnv) (cfg : RepoConfig) (s : Settings) (dry : Bool)
    (htc : cfg.test_cmd ≠ "") (hrt : s.retry_on_test_fail = true) :
    (handle_repo env cfg s dry).result.retries_used ≤ s.max_retries ∧
    (∀ v ∈ (handle_repo env cfg s dry).retriesHist, v ≤ s.max_retries) ∧
    (Status.TESTING ∈ (handle_repo env cfg s dry).trace →
      (handle_repo env cfg s dry).result.test_passed = true ∨
      (handle_repo env cfg s dry).result.retries_used = s.max_retries) ∧
    ((env.runTest 0).1 = true → (handle_repo env cfg s dry).result.retries_used = 0) := by
  obtain ⟨h1, h2, h3, h4⟩ := c1_handle_repo env cfg s dry
  exact ⟨h1, h2, h3 hrt, h4⟩

/-- Closed instance of C1 on the always-failing-test environment with
`max_retries = 1` (the Scenario-D setup). -/
theorem C1_fix_loop_bounded_witness :
    (handle_repo gFailTests cfgTest sOneRetry false).result.retries_used ≤
      sOneRetry.max_retries ∧
    (∀ v ∈ (handle_repo gFailTests cfgTest sOneRetry false).retriesHist,
      v ≤ sOneRetry.max_retries) ∧
    (Status.TESTING ∈ (handle_repo gFailTests cfgTest sOneRetry false).trace →
      (handle_repo gFailTests cfgTest sOneRetry false).result.test_passed = true ∨
      (handle_repo gFailTests cfgTest sOneRetry false).result.retries_used =
        sOneRetry.max_retries) ∧
    ((gFailTests.runTest 0).1 = true →
      (handle_repo gFailTests cfgTest sOneRetry false).result.retries_used = 0) :=
  C1_fix_loop_bounded gFailTests cfgTest sOneRetry false (by decide) rfl

/-- C2 counterexample: in the Scenario-D run (tests always fail,
`max_retries = 1`) the pipeline does end `FAILED` with `retries_used = 1`,
but the error string is "Tests failed after retries" (capital T), not the
claimed "tests failed after retries". -/
theorem C2_error_string_counterexample :
    (handle_repo gFailTests cfgTest sOneRetry false).result.status = Status.FAILED ∧
    (handle_repo gFailTests cfgTest sOneRetry false).result.retries_used = 1 ∧
    (handle_repo gFailTests cfgTest sOneRetry false).result.error =
      "Tests failed after retries" ∧
    (handle_repo gFailTests cfgTest sOneRetry false).result.error ≠
      "tests failed after retries" := by
  refine ⟨rfl, rfl, rfl, by decide⟩

/-- C2 (amended: the error string is "Tests failed after retries", with a
capital T): for every repo whose tests never pass, once the fix loop is
exhausted the pipeline ends in terminal `FAILED` with that error string,
`test_passed = false`, the working tree back on the pre-run branch, and the
`REVIEWING`/`COMMITTING`/`PUSHING` stages never run. -/
theorem C2_tests_exhausted_failed (env : PipeEnv) (cfg : RepoConfig) (s : Settings)
    (base : String)
    (henr : env.ensure_repo = Except.ok ())
    (hcb : env.current_branch = Except.ok base)
    (hbr : env.create_branch = Except.ok () ∨
      (∃ e, env.create_branch = Except.error e ∧
        env.checkout (s.branchPrefix ++ cfg.name) = Except.ok ()))
    (hadapt : env.adapt.success = true)
    (hch : env.has_changes = Except.ok true)
    (htc : cfg.test_cmd ≠ "")
    (hfail : ∀ i, (env.runTest i).1 = false)
    (hco : env.checkout base = Except.ok ()) :
    (handle_repo env cfg s false).result.status = Status.FAILED ∧
    (handle_repo env cfg s false).result.error = "Tests failed after retries" ∧
    (handle_repo env cfg s false).result.test_passed = false ∧
    (handle_repo env cfg s false).wt = base ∧
    Status.REVIEWING ∉ (handle_repo env cfg s false).trace ∧
    Status.COMMITTING ∉ (handle_repo env cfg s false).trace ∧
    Status.PUSHING ∉ (handle_repo env cfg s false).trace := by
  rw [handle_to_adapt env cfg s base henr hcb hbr,
    adapt_to_test env cfg s base _ hadapt hch]
  refine ⟨(stageTest_allfail_props env cfg s base _ htc hfail hco).1,
    (stageTest_allfail_props env cfg s base _ htc hfail hco).2.1,
    (stageTest_allfail_props env cfg s base _ htc hfail hco).2.2.1,
    (stageTest_allfail_props env cfg s base _ htc hfail hco).2.2.2.1, ?_, ?_, ?_⟩
  · intro hmem
    rcases (stageTest_allfail_props env cfg s base _ htc hfail hco).2.2.2.2 _ hmem
      with h | h | h | h
    · dsimp only at h
      simp only [List.mem_append, List.mem_singleton] at h
      rcases h with h | h <;> exact absurd h (by decide)
    · exact absurd h (by decide)
    · exact absurd h (by decide)
    · exact absurd h (by decide)
  · intro hmem
    rcases (stageTest_allfail_props env cfg s base _ htc hfail hco).2.2.2.2 _ hmem
      with h | h | h | h
    · dsimp only at h
      simp only [List.mem_append, List.mem_singleton] at h
      rcases h with h | h <;> exact absurd h (by decide)
    · exact absurd h (by decide)
    · exact absurd h (by decide)
    · exact absurd h (by decide)
  · intro hmem
    rcases (stageTest_allfail_props env cfg s base _ htc hfail hco).2.2.2.2 _ hmem
      with h | h | h | h
    · dsimp only at h
      simp only [List.mem_append, List.mem_singleton] at h
      rcases h with h | h <;> exact absurd h (by decide)
    · exact absurd h (by decide)
    · exact absurd h (by decide)
    · exact absurd h (by decide)

/-- Closed instance of the amended C2 on the always-failing-test
environment. -/
theorem C2_tests_exhausted_failed_witness :
    (handle_repo gFailTests cfgTest sOneRetry false).result.status = Status.FAILED ∧
    (handle_repo gFailTests cfgTest sOneRetry false).result.error =
      "Tests failed after retries" ∧
    (handle_repo gFailTests cfgTest sOneRetry false).result.test_passed = false ∧
    (handle_repo gFailTests cfgTest sOneRetry false).wt = "main" ∧
    Status.REVIEWING ∉ (handle_repo gFailTests cfgTest sOneRetry false).trace ∧
    Status.COMMITTING ∉ (handle_repo gFailTests cfgTest sOneRetry false).trace ∧
    Status.PUSHING ∉ (handle_repo gFailTests cfgTest sOneRetry false).trace :=
  C2_tests_exhausted_failed gFailTests cfgTest sOneRetry "main" rfl rfl (Or.inl rfl)
    rfl rfl (by decide) (fun _ => rfl) rfl

/-- C3: for every repo whose adapt-stage invocation returns an unsuccessful
result, the pipeline ends in terminal `FAILED` with a populated error
string (the invocation error, or "Cline adaptation failed" when that is
empty), the `COMMITTING` and `PUSHING` stages never run, and the working
tree is restored to the pre-run branch. -/
theorem C3_adapt_failure_terminal (env : PipeEnv) (cfg : RepoConfig) (s : Settings)
    (base : String)
    (henr : env.ensure_repo = Except.ok ())
    (hcb : env.current_branch = Except.ok base)
    (hbr : env.create_branch = Except.ok () ∨
      (∃ e, env.create_branch = Except.error e ∧
        env.checkout (s.branchPrefix ++ cfg.name) = Except.ok ()))
    (hadapt : env.adapt.success = false)
    (hco : env.checkout base = Except.ok ()) :
    (handle_repo env cfg s false).result.status = Status.FAILED ∧
    (handle_repo env cfg s false).result.error ≠ "" ∧
    Status.COMMITTING ∉ (handle_repo env cfg s false).trace ∧
    Status.PUSHING ∉ (handle_repo env cfg s false).trace ∧
    (handle_repo env cfg s false).wt = base := by
  rw [handle_to_adapt env cfg s base henr hcb hbr]
  simp [stageAdapt, setStatusP, setErrorP, checkoutEnd, hadapt, hco]
  refine ⟨?_, by decide, by decide⟩
  · by_cases he : env.adapt.error = "" <;> simp [he]

/-- Closed instance of C3 on the failing-adapt environment. -/
theorem C3_adapt_failure_terminal_witness :
    (handle_repo gAdaptFail cfgTest {} false).result.status = Status.FAILED ∧
    (handle_repo gAdaptFail cfgTest {} false).result.error ≠ "" ∧
    Status.COMMITTING ∉ (handle_repo gAdaptFail cfgTest {} false).trace ∧
    Status.PUSHING ∉ (handle_repo gAdaptFail cfgTest {} false).trace ∧
    (handle_repo gAdaptFail cfgTest {} false).wt = "main" :=
  C3_adapt_failure_terminal gAdaptFail cfgTest {} "main" rfl rfl (Or.inl rfl) rfl rfl

/-- C4 counterexample: when the successful adapt invocation produces no
working-tree changes the pipeline does end `SKIPPED`, but the error string
is "No file changes produced" (capital N), not the claimed "no file changes
produced". -/
theorem C4_error_string_counterexample :
    (handle_repo gNoChanges cfgTest {} false).result.status = Status.SKIPPED ∧
    (handle_repo gNoChanges cfgTest {} false).result.error = "No file changes produced" ∧
    (handle_repo gNoChanges cfgTest {} false).result.error ≠
      "no file changes produced" := by
  refine ⟨rfl, rfl, by decide⟩

/-- C4 (amended: the error string is "No file changes produced", with a
capital N): for every repo whose adapt invocation succeeds without touching
the working tree, the pipeline ends in terminal `SKIPPED` with that error
string, no test, commit or push stage runs, and the working tree is
restored to the pre-run branch. -/
theorem C4_no_changes_skipped (env : PipeEnv) (cfg : RepoConfig) (s : Settings)
    (base : String)
    (henr : env.ensure_repo = Except.ok ())
    (hcb : env.current_branch = Except.ok base)
    (hbr : env.create_branch = Except.ok () ∨
      (∃ e, env.create_branch = Except.error e ∧
        env.checkout (s.branchPrefix ++ cfg.name) = Except.ok ()))
    (hadapt : env.adapt.success = true)
    (hch : env.has_changes = Except.ok false)
    (hco : env.checkout base = Except.ok ()) :
    (handle_repo env cfg s false).result.status = Status.SKIPPED ∧
    (handle_repo env cfg s false).result.error = "No file changes produced" ∧
    Status.TESTING ∉ (handle_repo env cfg s false).trace ∧
    Status.COMMITTING ∉ (handle_repo env cfg s false).trace ∧
    Status.PUSHING ∉ (handle_repo env cfg s false).trace ∧
    (handle_repo env cfg s false).wt = base := by
  rw [handle_to_adapt env cfg s base henr hcb hbr]
  simp [stageAdapt, setStatusP, setErrorP, checkoutEnd, hadapt, hch, hco]
  exact ⟨by decide, by decide, by decide⟩

/-- Closed instance of the amended C4 on the no-changes environment. -/
theorem C4_no_changes_skipped_witness :
    (handle_repo gNoChanges cfgTest {} false).result.status = Status.SKIPPED ∧
    (handle_repo gNoChanges cfgTest {} false).result.error = "No file changes produced" ∧
    Status.TESTING ∉ (handle_repo gNoChanges cfgTest {} false).trace ∧
    Status.COMMITTING ∉ (handle_repo gNoChanges cfgTest {} false).trace ∧
    Status.PUSHING ∉ (handle_repo gNoChanges cfgTest {} false).trace ∧
    (handle_repo gNoChanges cfgTest {} false).wt = "main" :=
  C4_no_changes_skipped gNoChanges cfgTest {} "main" rfl rfl (Or.inl rfl) rfl rfl rfl

/-- C6 counterexample: a dry run whose rollback checkout of the pre-run
branch "main" raises assigns `SKIPPED` and then overwrites it with `FAILED`
in the outer exception handler, so `SKIPPED` is not sticky. -/
theorem C6_skipped_overridden_counterexample :
    (handle_repo gBadCheckout cfgTest {} true).trace =
      [Status.BRANCHING, Status.SKIPPED, Status.FAILED] ∧
    (handle_repo gBadCheckout cfgTest {} true).result.status = Status.FAILED ∧
    (handle_repo gBadCheckout cfgTest {} true).result.status ≠ Status.SKIPPED := by
  refine ⟨rfl, rfl, by decide⟩

/-- C6 (amended: `FAILED` is unconditionally sticky -- once assigned, the
pipeline task completes with status `FAILED`, for every environment;
`SKIPPED` is sticky provided the rollback checkout of the pre-run branch
succeeds, but when that checkout raises after `SKIPPED` was assigned, the
outer exception handler overwrites it with `FAILED`, as the counterexample
shows). -/
theorem C6_terminal_stickiness_amended (env : PipeEnv) (cfg : RepoConfig) (s : Settings)
    (dry : Bool) :
    (Status.FAILED ∈ (handle_repo env cfg s dry).trace →
      (handle_repo env cfg s dry).result.status = Status.FAILED) ∧
    (∀ base, env.current_branch = Except.ok base → env.checkout base = Except.ok () →
      Status.SKIPPED ∈ (handle_repo env cfg s dry).trace →
      (handle_repo env cfg s dry).result.status = Status.SKIPPED) := by
  unfold handle_repo
  dsimp only
  split
  · refine ⟨fun _ => by simp, fun base _ _ hmem => ?_⟩
    rw [failWith_trace] at hmem
    simp only [initState, List.mem_append, List.mem_singleton] at hmem
    rcases hmem with hmem | hmem
    · simp at hmem
    · exact absurd hmem (by decide)
  · split
    · refine ⟨fun _ => by simp, fun base _ _ hmem => ?_⟩
      rw [failWith_trace] at hmem
      simp only [initState, List.mem_append, List.mem_singleton] at hmem
      rcases hmem with hmem | hmem
      · simp at hmem
      · exact absurd hmem (by decide)
    · rename_i base0 heq
      have hS := sticky_stageBranch env cfg s dry base0
        { initState cfg with base? := some base0, wt := base0 }
        (by simp [initState]) (by simp [initState])
      refine ⟨hS.1, fun base hcb hco hmem => ?_⟩
      rw [hcb] at heq
      injection heq with hb
      subst hb
      exact hS.2 hco hmem

/-- Closed instance of the amended C6: a failing run stays `FAILED` even
though its rollback checkout of "main" raises, and a dry run stays
`SKIPPED` when the rollback checkout works. -/
theorem C6_terminal_stickiness_amended_witness :
    (handle_repo gBadCheckout cfgTest {} true).result.status = Status.FAILED ∧
    (handle_repo gOK cfgTest {} true).result.status = Status.SKIPPED :=
  ⟨(C6_terminal_stickiness_amended gBadCheckout cfgTest {} true).1 (by decide),
   (C6_terminal_stickiness_amended gOK cfgTest {} true).2 "main" rfl rfl (by decide)⟩

/-- C7 counterexample: a failed structured review invocation that produced
partial stdout leaves the pipeline on course to `DONE`, but the review
summary is that partial stdout, not empty. -/
theorem C7_summary_not_empty_counterexample :
    gRevFail.review.success = false ∧
    (handle_repo gRevFail cfgNoTest {} false).result.status = Status.DONE ∧
    (handle_repo gRevFail cfgNoTest {} false).result.review_summary = "partial out" ∧
    (handle_repo gRevFail cfgNoTest {} false).result.review_summary ≠ "" := by
  refine ⟨rfl, rfl, rfl, by decide⟩

/-- C7 (amended: a failure of the structured review invocation is
non-fatal -- the pipeline still proceeds through `COMMITTING` to terminal
`DONE` -- but the review summary is not left empty: it is set to the
failed invocation's text output, which may be non-empty, as the
counterexample shows; the success flag of the review result is never
consulted). -/
theorem C7_review_failure_nonfatal (env : PipeEnv) (cfg : RepoConfig) (s : Settings)
    (base d ds : String) (fl : List String)
    (henr : env.ensure_repo = Except.ok ())
    (hcb : env.current_branch = Except.ok base)
    (hbr : env.create_branch = Except.ok () ∨
      (∃ e, env.create_branch = Except.error e ∧
        env.checkout (s.branchPrefix ++ cfg.name) = Except.ok ()))
    (hadapt : env.adapt.success = true)
    (hch : env.has_changes = Except.ok true)
    (htest : cfg.test_cmd = "" ∨ (env.runTest 0).1 = true)
    (hdiff : env.diff = Except.ok d)
    (hd : d ≠ "")
    (hrev : env.review.success = false)
    (hsa : env.stage_all = Except.ok ())
    (hsc : env.has_staged_changes = Except.ok true)
    (hdn : env.diff_name_only = Except.ok fl)
    (hds : env.diff_stat = Except.ok ds)
    (hcm : env.commit = Except.ok ())
    (hgh : cfg.github = "")
    (hco : env.checkout base = Except.ok ()) :
    (handle_repo env cfg s false).result.status = Status.DONE ∧
    Status.COMMITTING ∈ (handle_repo env cfg s false).trace ∧
    (handle_repo env cfg s false).result.review_summary = (env.review).text_output ∧
    (handle_repo env cfg s false).wt = base := by
  rw [handle_to_adapt env cfg s base henr hcb hbr,
    adapt_to_test env cfg s base _ hadapt hch]
  by_cases htc : cfg.test_cmd = ""
  · simp [stageTest, htc, stageReview, hdiff, hd, stageCommit, hsa, hsc, hdn, hds, hcm,
      stagePush, RepoConfig.is_github, hgh, stageDone, checkoutEnd, hco, setStatusP,
      setErrorP]
  · have h0t : (env.runTest 0).1 = true := by
      rcases htest with h | h
      · exact absurd h htc
      · exact h
    simp [stageTest, htc, h0t, fixLoopP_pass, stageReview, hdiff, hd, stageCommit, hsa,
      hsc, hdn, hds, hcm, stagePush, RepoConfig.is_github, hgh, stageDone, checkoutEnd,
      hco, setStatusP, setErrorP]

/-- Closed instance of the amended C7 on the failed-review environment. -/
theorem C7_review_failure_nonfatal_witness :
    (handle_repo gRevFail cfgNoTest {} false).result.status = Status.DONE ∧
    Status.COMMITTING ∈ (handle_repo gRevFail cfgNoTest {} false).trace ∧
    (handle_repo gRevFail cfgNoTest {} false).result.review_summary =
      (gRevFail.review).text_output ∧
    (handle_repo gRevFail cfgNoTest {} false).wt = "main" :=
  C7_review_failure_nonfatal gRevFail cfgNoTest {} "main" "some diff" "1 file changed"
    ["a.py"] rfl rfl (Or.inl rfl) rfl rfl (Or.inl rfl) rfl (by decide) rfl rfl rfl rfl
    rfl rfl rfl rfl

end Cascade
